import Mathlib

/-!
Verification development for the `gender_analysis` repository
(`gender_analysis/analysis/dunning.py` and `gender_analysis/common.py`).

The Python code is shallowly embedded:
* a Python `Counter`/`dict` mapping terms to counts becomes an association
  list `List (String × Nat)` (Python dict keys are unique, so theorems that
  need key-uniqueness take an explicit `Nodup` hypothesis);
* Python float arithmetic on the Dunning statistic is idealised as real
  arithmetic (`ℝ` with `Real.log`);
* the external collaborators (the `Corpus` class, `nltk.pos_tag`, float
  rendering) are abstract parameters, as the spec treats them as black-box
  collaborators and their code is not part of the analysed sources;
* fallible Python code (functions that can raise) returns `Except PyErr _`,
  and the pickle cache becomes an explicit key-value state threaded through
  the functions that touch it.
-/

namespace GenderAnalysis

/-- A word-frequency table: the embedding of a Python `Counter`/`dict`
mapping a term to its occurrence count (one partition of the corpus). -/
abbrev FreqTable := List (String × Nat)

/-- `getCount t word` embeds the Python subscript `counter[word]` on a
`Counter`: the stored count, or `0` when the key is absent. -/
def getCount (t : FreqTable) (word : String) : Nat :=
  (t.lookup word).getD 0

/-- The record stored per term by `dunning_total` (`dunning.py` lines
135-144): the Python result dict with keys `dunning`, `count_total`,
`count_corp1`, `count_corp2`, `freq_total`, `freq_corp1`, `freq_corp2`. -/
structure TermStat where
  dunning : ℝ
  count_total : Nat
  count_corp1 : Nat
  count_corp2 : Nat
  freq_total : ℝ
  freq_corp1 : ℝ
  freq_corp2 : ℝ

/-- The result mapping returned by `dunning_total`: term ↦ statistics
record, in insertion order (the embedding of the Python result dict). -/
abbrev DunningResult := List (String × TermStat)

/-- Embeds `dunn_individual_word` (`dunning.py` lines 13-43).  Python float
arithmetic and `math.log` are idealised as `ℝ` and `Real.log`.  The local
names `a`, `b`, `c`, `d`, `e1`, `e2`, `dunning_log_likelihood` mirror
lines 30-41, including the final sign flip
`if count_of_word_in_corpus_1 * math.log(count_of_word_in_corpus_1 / e1) < 0`. -/
noncomputable def dunn_individual_word
    (total_words_in_corpus_1 total_words_in_corpus_2
     count_of_word_in_corpus_1 count_of_word_in_corpus_2 : ℝ) : ℝ :=
  let a := count_of_word_in_corpus_1
  let b := count_of_word_in_corpus_2
  let c := total_words_in_corpus_1
  let d := total_words_in_corpus_2
  let e1 := c * (a + b) / (c + d)
  let e2 := d * (a + b) / (c + d)
  let dunning_log_likelihood :=
    2 * (a * Real.log (a / e1) + b * Real.log (b / e2))
  if count_of_word_in_corpus_1 * Real.log (count_of_word_in_corpus_1 / e1) < 0 then
    -dunning_log_likelihood
  else
    dunning_log_likelihood

/-- Unfolded form of `dunn_individual_word` (pure zeta-reduction of the
`let` bindings), convenient for rewriting. -/
lemma dunn_individual_word_def (c d a b : ℝ) :
    dunn_individual_word c d a b =
      if a * Real.log (a / (c * (a + b) / (c + d))) < 0 then
        -(2 * (a * Real.log (a / (c * (a + b) / (c + d)))
             + b * Real.log (b / (d * (a + b) / (c + d)))))
      else
        2 * (a * Real.log (a / (c * (a + b) / (c + d)))
           + b * Real.log (b / (d * (a + b) / (c + d)))) := rfl

/-- Embeds the loops at `dunning.py` lines 113-120 computing
`total_words_counter1`/`total_words_counter2`: iterate over the counter's
keys, summing `counter[word]`. -/
def total_words (counter : FreqTable) : Nat :=
  (counter.map Prod.fst).foldl (fun total word => total + getCount counter word) 0

/-- Embeds the result-record construction at `dunning.py` lines 135-144,
given the two corpus totals and the two per-word counts. -/
noncomputable def mkTermStat
    (total_words_counter1 total_words_counter2
     counter1_wordcount counter2_wordcount : Nat) : TermStat :=
  { dunning := dunn_individual_word (total_words_counter1 : ℝ) (total_words_counter2 : ℝ)
      (counter1_wordcount : ℝ) (counter2_wordcount : ℝ)
    count_total := counter1_wordcount + counter2_wordcount
    count_corp1 := counter1_wordcount
    count_corp2 := counter2_wordcount
    freq_total := ((counter1_wordcount + counter2_wordcount : Nat) : ℝ) /
      ((total_words_counter1 : ℝ) + (total_words_counter2 : ℝ))
    freq_corp1 := (counter1_wordcount : ℝ) / (total_words_counter1 : ℝ)
    freq_corp2 := (counter2_wordcount : ℝ) / (total_words_counter2 : ℝ) }

/-- Embeds `dunning_total` (`dunning.py` lines 79-149) minus its optional
pickling side effect (modelled separately by `dunning_total_with_pickle`):
compute both corpus totals, then walk `counter1`'s keys; a word also
present in `counter2` whose combined count is at least 10 contributes a
result record. -/
noncomputable def dunning_total (counter1 counter2 : FreqTable) : DunningResult :=
  let total_words_counter1 := total_words counter1
  let total_words_counter2 := total_words counter2
  (counter1.map Prod.fst).foldl (fun dunning_result word =>
    let counter1_wordcount := getCount counter1 word
    if (counter2.lookup word).isSome then
      let counter2_wordcount := getCount counter2 word
      if counter1_wordcount + counter2_wordcount < 10 then
        dunning_result
      else
        dunning_result ++ [(word,
          mkTermStat total_words_counter1 total_words_counter2
            counter1_wordcount counter2_wordcount)]
    else
      dunning_result) []

/-! ### Sign analysis of the scorer -/

/-- For positive inputs, corpus 1's log term is negative exactly when the
observed count is below expectation, i.e. `a * d < c * b` (equal relative
frequency written cross-multiplied). -/
lemma dunn_log_term_neg_iff (a b c d : ℝ)
    (ha : 0 < a) (hb : 0 < b) (hc : 0 < c) (hd : 0 < d) :
    a * Real.log (a / (c * (a + b) / (c + d))) < 0 ↔ a * d < c * b := by
  have hcd : (0 : ℝ) < c + d := by linarith
  have he1 : (0 : ℝ) < c * (a + b) / (c + d) := by positivity
  have hx : (0 : ℝ) < a / (c * (a + b) / (c + d)) := by positivity
  rw [mul_neg_iff]
  constructor
  · rintro (⟨-, hL⟩ | ⟨ha', -⟩)
    · rw [Real.log_neg_iff hx, div_lt_one he1, lt_div_iff hcd] at hL
      nlinarith
    · linarith
  · intro h
    left
    refine ⟨ha, ?_⟩
    rw [Real.log_neg_iff hx, div_lt_one he1, lt_div_iff hcd]
    nlinarith

/-- When the two relative frequencies agree (`a * d = c * b`), the observed
count equals its expectation and corpus 1's log term vanishes. -/
lemma dunn_log_term_eq_zero (a b c d : ℝ)
    (ha : 0 < a) (hb : 0 < b) (hc : 0 < c) (hd : 0 < d)
    (h : a * d = c * b) :
    Real.log (a / (c * (a + b) / (c + d))) = 0 := by
  have hcd : (0 : ℝ) < c + d := by linarith
  have he1ne : c * (a + b) / (c + d) ≠ 0 := by positivity
  have h1 : a / (c * (a + b) / (c + d)) = 1 := by
    rw [div_eq_one_iff_eq he1ne, eq_div_iff (ne_of_gt hcd)]
    nlinarith
  rw [h1, Real.log_one]

/-- Antisymmetry of the scorer under swapping the two partitions, at the
level of real arguments. -/
lemma dunn_individual_word_swap (c d a b : ℝ)
    (ha : 0 < a) (hb : 0 < b) (hc : 0 < c) (hd : 0 < d) :
    dunn_individual_word d c b a = -dunn_individual_word c d a b := by
  rw [dunn_individual_word_def, dunn_individual_word_def]
  rw [add_comm b a, add_comm d c]
  have hA := dunn_log_term_neg_iff a b c d ha hb hc hd
  have hB : b * Real.log (b / (d * (a + b) / (c + d))) < 0 ↔ b * c < d * a := by
    have h0 := dunn_log_term_neg_iff b a d c hb ha hd hc
    rwa [add_comm b a, add_comm d c] at h0
  split_ifs with h1 h2 h2
  · exfalso
    have hx := hA.mp h2
    have hy := hB.mp h1
    nlinarith
  · ring
  · ring
  · have hx : ¬ a * d < c * b := fun hh => h2 (hA.mpr hh)
    have hy : ¬ b * c < d * a := fun hh => h1 (hB.mpr hh)
    have had : a * d = c * b := by
      have hx' := not_lt.mp hx
      have hy' := not_lt.mp hy
      nlinarith
    have hLa := dunn_log_term_eq_zero a b c d ha hb hc hd had
    have hLb : Real.log (b / (d * (a + b) / (c + d))) = 0 := by
      have h0 := dunn_log_term_eq_zero b a d c hb ha hd hc (by nlinarith)
      rwa [add_comm b a, add_comm d c] at h0
    rw [hLa, hLb]
    ring

/-! ### Claims about the scorer -/

/-- The formula stated by the spec for the signed Dunning log-likelihood
statistic, written from the spec's own words: expected counts
`e1 = total_1*(count_1+count_2)/(total_1+total_2)` and
`e2 = total_2*(count_1+count_2)/(total_1+total_2)`, magnitude
`2*(count_1*ln(count_1/e1) + count_2*ln(count_2/e2))`, negated exactly when
`count_1*ln(count_1/e1) < 0`. -/
noncomputable def dunningSpecScore (total_1 total_2 count_1 count_2 : ℝ) : ℝ :=
  let e1 := total_1 * (count_1 + count_2) / (total_1 + total_2)
  let e2 := total_2 * (count_1 + count_2) / (total_1 + total_2)
  let magnitude := 2 * (count_1 * Real.log (count_1 / e1)
    + count_2 * Real.log (count_2 / e2))
  if count_1 * Real.log (count_1 / e1) < 0 then -magnitude else magnitude

/-- Claim C1: for every input with positive totals and positive counts, each
count at most its total, `dunn_individual_word` returns exactly the spec's
signed statistic: `2*(count_1*ln(count_1/e1) + count_2*ln(count_2/e2))`
with `e1 = total_1*(count_1+count_2)/(total_1+total_2)` and
`e2 = total_2*(count_1+count_2)/(total_1+total_2)`, negated exactly when
`count_1*ln(count_1/e1) < 0`. -/
theorem dunn_individual_word_matches_spec (total_1 total_2 count_1 count_2 : Nat)
    (h1 : 0 < total_1) (h2 : 0 < total_2) (h3 : 0 < count_1) (h4 : 0 < count_2)
    (h5 : count_1 ≤ total_1) (h6 : count_2 ≤ total_2) :
    dunn_individual_word (total_1 : ℝ) (total_2 : ℝ) (count_1 : ℝ) (count_2 : ℝ)
      = dunningSpecScore (total_1 : ℝ) (total_2 : ℝ) (count_1 : ℝ) (count_2 : ℝ) := rfl

/-- Witness for C1: the hypotheses hold at `(8648489, 8700765, 50, 1000)`
(the doctest input of `dunn_individual_word`) and the theorem applies. -/
theorem dunn_individual_word_matches_spec_witness :
    (0 < 8648489 ∧ 0 < 8700765 ∧ 0 < 50 ∧ 0 < 1000 ∧ 50 ≤ 8648489 ∧ 1000 ≤ 8700765)
    ∧ dunn_individual_word ((8648489 : Nat) : ℝ) ((8700765 : Nat) : ℝ)
        ((50 : Nat) : ℝ) ((1000 : Nat) : ℝ)
      = dunningSpecScore ((8648489 : Nat) : ℝ) ((8700765 : Nat) : ℝ)
        ((50 : Nat) : ℝ) ((1000 : Nat) : ℝ) :=
  ⟨by norm_num,
   dunn_individual_word_matches_spec 8648489 8700765 50 1000
     (by norm_num) (by norm_num) (by norm_num) (by norm_num) (by norm_num) (by norm_num)⟩

/-- Claim C4: the scorer is a (deterministic) function of its four
arguments, and swapping the roles of the two partitions negates the score. -/
theorem dunn_individual_word_antisymm (total_1 total_2 count_1 count_2 : Nat)
    (h1 : 0 < total_1) (h2 : 0 < total_2) (h3 : 0 < count_1) (h4 : 0 < count_2)
    (h5 : count_1 ≤ total_1) (h6 : count_2 ≤ total_2) :
    dunn_individual_word (total_2 : ℝ) (total_1 : ℝ) (count_2 : ℝ) (count_1 : ℝ)
      = -dunn_individual_word (total_1 : ℝ) (total_2 : ℝ) (count_1 : ℝ) (count_2 : ℝ) :=
  dunn_individual_word_swap (total_1 : ℝ) (total_2 : ℝ) (count_1 : ℝ) (count_2 : ℝ)
    (by exact_mod_cast h3) (by exact_mod_cast h4)
    (by exact_mod_cast h1) (by exact_mod_cast h2)

/-- Witness for C4: the hypotheses hold at `(8, 12, 2, 3)` and the theorem
applies. -/
theorem dunn_individual_word_antisymm_witness :
    (0 < 8 ∧ 0 < 12 ∧ 0 < 2 ∧ 0 < 3 ∧ 2 ≤ 8 ∧ 3 ≤ 12)
    ∧ dunn_individual_word ((12 : Nat) : ℝ) ((8 : Nat) : ℝ) ((3 : Nat) : ℝ) ((2 : Nat) : ℝ)
      = -dunn_individual_word ((8 : Nat) : ℝ) ((12 : Nat) : ℝ) ((2 : Nat) : ℝ) ((3 : Nat) : ℝ) :=
  ⟨by norm_num,
   dunn_individual_word_antisymm 8 12 2 3
     (by norm_num) (by norm_num) (by norm_num) (by norm_num) (by norm_num) (by norm_num)⟩

/-- Claim C5: on valid positive inputs with equal relative frequencies
(`count_1/total_1 = count_2/total_2` in exact real arithmetic),
`dunn_individual_word` returns exactly 0. -/
theorem dunn_individual_word_equal_freq_zero (total_1 total_2 count_1 count_2 : Nat)
    (h1 : 0 < total_1) (h2 : 0 < total_2) (h3 : 0 < count_1) (h4 : 0 < count_2)
    (h5 : count_1 ≤ total_1) (h6 : count_2 ≤ total_2)
    (hfreq : (count_1 : ℝ) / (total_1 : ℝ) = (count_2 : ℝ) / (total_2 : ℝ)) :
    dunn_individual_word (total_1 : ℝ) (total_2 : ℝ) (count_1 : ℝ) (count_2 : ℝ) = 0 := by
  have ha : (0 : ℝ) < (count_1 : ℝ) := by exact_mod_cast h3
  have hb : (0 : ℝ) < (count_2 : ℝ) := by exact_mod_cast h4
  have hc : (0 : ℝ) < (total_1 : ℝ) := by exact_mod_cast h1
  have hd : (0 : ℝ) < (total_2 : ℝ) := by exact_mod_cast h2
  have had : (count_1 : ℝ) * (total_2 : ℝ) = (total_1 : ℝ) * (count_2 : ℝ) := by
    rw [div_eq_div_iff (ne_of_gt hc) (ne_of_gt hd)] at hfreq
    linarith
  have hLa := dunn_log_term_eq_zero (count_1 : ℝ) (count_2 : ℝ) (total_1 : ℝ) (total_2 : ℝ)
    ha hb hc hd had
  have hLb : Real.log ((count_2 : ℝ) /
      ((total_2 : ℝ) * ((count_1 : ℝ) + (count_2 : ℝ)) / ((total_1 : ℝ) + (total_2 : ℝ)))) = 0 := by
    have h0 := dunn_log_term_eq_zero (count_2 : ℝ) (count_1 : ℝ) (total_2 : ℝ) (total_1 : ℝ)
      hb ha hd hc (by nlinarith)
    rwa [add_comm ((count_2 : ℝ)) ((count_1 : ℝ)),
      add_comm ((total_2 : ℝ)) ((total_1 : ℝ))] at h0
  rw [dunn_individual_word_def, hLa, hLb]
  norm_num

/-- Witness for C5: the hypotheses hold at `(10, 10, 5, 5)` (equal relative
frequencies) and the theorem applies. -/
theorem dunn_individual_word_equal_freq_zero_witness :
    (0 < 10 ∧ 0 < 5 ∧ 5 ≤ 10
      ∧ ((5 : Nat) : ℝ) / ((10 : Nat) : ℝ) = ((5 : Nat) : ℝ) / ((10 : Nat) : ℝ))
    ∧ dunn_individual_word ((10 : Nat) : ℝ) ((10 : Nat) : ℝ) ((5 : Nat) : ℝ) ((5 : Nat) : ℝ) = 0 :=
  ⟨⟨by norm_num, by norm_num, by norm_num, rfl⟩,
   dunn_individual_word_equal_freq_zero 10 10 5 5
     (by norm_num) (by norm_num) (by norm_num) (by norm_num) (by norm_num) (by norm_num) rfl⟩

/-! ### Membership structure of the batch comparison -/

lemma foldl_add_map_sum {α : Type} (f : α → Nat) (l : List α) :
    ∀ acc : Nat, l.foldl (fun a x => a + f x) acc = acc + (l.map f).sum := by
  induction l with
  | nil => intro acc; simp
  | cons x xs ih =>
    intro acc
    simp only [List.foldl_cons, List.map_cons, List.sum_cons]
    rw [ih (acc + f x)]
    ring

lemma total_words_eq_sum_getCount (counter : FreqTable) :
    total_words counter = ((counter.map Prod.fst).map (getCount counter)).sum := by
  unfold total_words
  rw [foldl_add_map_sum]
  simp

lemma lookup_isSome_iff {β : Type} (t : List (String × β)) (w : String) :
    (t.lookup w).isSome ↔ w ∈ t.map Prod.fst := by
  induction t with
  | nil => simp [List.lookup]
  | cons p tl ih =>
    obtain ⟨k, v⟩ := p
    by_cases h : w = k
    · subst h; simp [List.lookup_cons]
    · simp [List.lookup_cons, beq_false_of_ne h, ih, h]

lemma lookup_eq_some_mem {β : Type} (t : List (String × β)) (w : String) (v : β)
    (h : t.lookup w = some v) : (w, v) ∈ t := by
  induction t with
  | nil => simp [List.lookup] at h
  | cons p tl ih =>
    obtain ⟨k, b⟩ := p
    by_cases hk : w = k
    · subst hk
      rw [List.lookup_cons] at h
      simp only [beq_self_eq_true, if_true] at h
      injection h with h'
      subst h'
      exact List.mem_cons_self _ _
    · rw [List.lookup_cons] at h
      rw [beq_false_of_ne hk] at h
      simp only [if_false] at h
      exact List.mem_cons_of_mem _ (ih h)

/-- A single stored count never exceeds the sum of all stored counts. -/
lemma getCount_le_sum_snd (t : FreqTable) (w : String) :
    getCount t w ≤ (t.map Prod.snd).sum := by
  unfold getCount
  cases hl : t.lookup w with
  | none => simp
  | some v =>
    simp only [Option.getD_some]
    exact List.le_sum_of_mem (List.mem_map_of_mem Prod.snd (lookup_eq_some_mem t w v hl))

/-- With unique keys (always true of a Python dict), the key-walk total of
`dunning_total` equals the sum of all stored counts. -/
lemma total_words_eq_sum_snd (t : FreqTable) (h : (t.map Prod.fst).Nodup) :
    total_words t = (t.map Prod.snd).sum := by
  rw [total_words_eq_sum_getCount]
  induction t with
  | nil => simp
  | cons p tl ih =>
    obtain ⟨k, v⟩ := p
    simp only [List.map_cons, List.nodup_cons] at h ⊢
    obtain ⟨hk, htl⟩ := h
    simp only [List.sum_cons]
    have hhead : getCount ((k, v) :: tl) k = v := by
      simp [getCount, List.lookup_cons]
    have htail : (tl.map Prod.fst).map (getCount ((k, v) :: tl))
        = (tl.map Prod.fst).map (getCount tl) := by
      refine List.map_congr_left (fun w hw => ?_)
      have hne : w ≠ k := fun he => hk (he ▸ hw)
      simp [getCount, List.lookup_cons, beq_false_of_ne hne]
    rw [hhead, htail, ih htl]

/-- Every entry of `dunning_total counter1 counter2` arises from a word of
`counter1` that is also a key of `counter2`, passes the combined-count
threshold, and carries exactly the record built by `mkTermStat`. -/
lemma dunning_total_mem_spec (counter1 counter2 : FreqTable) :
    ∀ p ∈ dunning_total counter1 counter2,
      ∃ word,
        p = (word, mkTermStat (total_words counter1) (total_words counter2)
              (getCount counter1 word) (getCount counter2 word))
        ∧ word ∈ counter1.map Prod.fst
        ∧ (counter2.lookup word).isSome
        ∧ 10 ≤ getCount counter1 word + getCount counter2 word := by
  unfold dunning_total
  have H : ∀ (l : List String) (res : DunningResult),
      (∀ w ∈ l, w ∈ counter1.map Prod.fst) →
      (∀ p ∈ res, ∃ word,
        p = (word, mkTermStat (total_words counter1) (total_words counter2)
              (getCount counter1 word) (getCount counter2 word))
        ∧ word ∈ counter1.map Prod.fst
        ∧ (counter2.lookup word).isSome
        ∧ 10 ≤ getCount counter1 word + getCount counter2 word) →
      ∀ p ∈ l.foldl (fun dunning_result word =>
          let counter1_wordcount := getCount counter1 word
          if (counter2.lookup word).isSome then
            let counter2_wordcount := getCount counter2 word
            if counter1_wordcount + counter2_wordcount < 10 then
              dunning_result
            else
              dunning_result ++ [(word,
                mkTermStat (total_words counter1) (total_words counter2)
                  counter1_wordcount counter2_wordcount)]
          else
            dunning_result) res,
        ∃ word,
          p = (word, mkTermStat (total_words counter1) (total_words counter2)
                (getCount counter1 word) (getCount counter2 word))
          ∧ word ∈ counter1.map Prod.fst
          ∧ (counter2.lookup word).isSome
          ∧ 10 ≤ getCount counter1 word + getCount counter2 word := by
    intro l
    induction l with
    | nil => intro res _ hres p hp; exact hres p hp
    | cons w tl ih =>
      intro res hsub hres p hp
      simp only [List.foldl_cons] at hp
      refine ih _ (fun x hx => hsub x (List.mem_cons_of_mem _ hx)) ?_ p hp
      intro q hq
      by_cases hmem : (counter2.lookup w).isSome
      · by_cases hthr : getCount counter1 w + getCount counter2 w < 10
        · simp only [hmem, if_true, hthr] at hq
          exact hres q hq
        · simp only [hmem, if_true, hthr, if_false, List.mem_append,
            List.mem_singleton] at hq
          rcases hq with hq | hq
          · exact hres q hq
          · exact ⟨w, hq, hsub w (List.mem_cons_self w tl), hmem, Nat.not_lt.mp hthr⟩
      · simp only [hmem, if_false] at hq
        exact hres q hq
  exact H (counter1.map Prod.fst) [] (fun w hw => hw) (by simp)

/-- Claim C2: every term of the result set of `dunning_total` is a key of
both input tables and its combined count is at least 10; consequently a
term absent from `counter1` (even if present in `counter2`), or a shared
term with combined count below 10, never appears in the result set. -/
theorem dunning_total_keys_threshold (counter1 counter2 : FreqTable) :
    (dunning_total counter1 counter2).Forall (fun p =>
      p.1 ∈ counter1.map Prod.fst
      ∧ p.1 ∈ counter2.map Prod.fst
      ∧ 10 ≤ getCount counter1 p.1 + getCount counter2 p.1) := by
  rw [List.forall_iff_forall_mem]
  intro p hp
  obtain ⟨word, hpw, hk1, hk2, hthr⟩ := dunning_total_mem_spec counter1 counter2 p hp
  subst hpw
  exact ⟨hk1, (lookup_isSome_iff counter2 word).mp hk2, hthr⟩

/-- Claim C3: every record of `dunning_total` stores the two per-table
counts, their sum as `count_total`, and the three frequencies
`count/total_tokens` (totals being the sums of all counts of the
respective tables), each frequency lying in `[0, 1]`. -/
theorem dunning_total_term_statistics (counter1 counter2 : FreqTable)
    (h1 : (counter1.map Prod.fst).Nodup) (h2 : (counter2.map Prod.fst).Nodup) :
    (dunning_total counter1 counter2).Forall (fun p =>
      p.2.count_corp1 = getCount counter1 p.1
      ∧ p.2.count_corp2 = getCount counter2 p.1
      ∧ p.2.count_total = p.2.count_corp1 + p.2.count_corp2
      ∧ p.2.freq_corp1 = (p.2.count_corp1 : ℝ) / (((counter1.map Prod.snd).sum : Nat) : ℝ)
      ∧ p.2.freq_corp2 = (p.2.count_corp2 : ℝ) / (((counter2.map Prod.snd).sum : Nat) : ℝ)
      ∧ p.2.freq_total = (p.2.count_total : ℝ) /
          ((((counter1.map Prod.snd).sum : Nat) : ℝ) + (((counter2.map Prod.snd).sum : Nat) : ℝ))
      ∧ (0 ≤ p.2.freq_corp1 ∧ p.2.freq_corp1 ≤ 1)
      ∧ (0 ≤ p.2.freq_corp2 ∧ p.2.freq_corp2 ≤ 1)
      ∧ (0 ≤ p.2.freq_total ∧ p.2.freq_total ≤ 1)) := by
  rw [List.forall_iff_forall_mem]
  intro p hp
  obtain ⟨word, hpw, hk1, hk2, hthr⟩ := dunning_total_mem_spec counter1 counter2 p hp
  subst hpw
  set c1 := getCount counter1 word with hc1
  set c2 := getCount counter2 word with hc2
  have hS1 : total_words counter1 = (counter1.map Prod.snd).sum := total_words_eq_sum_snd _ h1
  have hS2 : total_words counter2 = (counter2.map Prod.snd).sum := total_words_eq_sum_snd _ h2
  set S1 := (counter1.map Prod.snd).sum with hS1d
  set S2 := (counter2.map Prod.snd).sum with hS2d
  have hb1 : c1 ≤ S1 := getCount_le_sum_snd counter1 word
  have hb2 : c2 ≤ S2 := getCount_le_sum_snd counter2 word
  have hfrac : ∀ (c S : Nat), c ≤ S → 0 ≤ (c : ℝ) / (S : ℝ) ∧ (c : ℝ) / (S : ℝ) ≤ 1 := by
    intro c S hcS
    constructor
    · positivity
    · rcases Nat.eq_zero_or_pos S with hS | hS
      · subst hS
        have : c = 0 := Nat.le_zero.mp hcS
        simp [this]
      · rw [div_le_one (by exact_mod_cast hS)]
        exact_mod_cast hcS
  refine ⟨rfl, rfl, rfl, ?_, ?_, ?_, ?_, ?_, ?_⟩
  · simp [mkTermStat, hS1]
  · simp [mkTermStat, hS2]
  · simp [mkTermStat, hS1, hS2]
  · simpa [mkTermStat, hS1] using hfrac c1 S1 hb1
  · simpa [mkTermStat, hS2] using hfrac c2 S2 hb2
  · have hsum : c1 + c2 ≤ S1 + S2 := Nat.add_le_add hb1 hb2
    have hpos : 0 < S1 + S2 := lt_of_lt_of_le (lt_of_lt_of_le (by norm_num) hthr) hsum
    constructor
    · simp only [mkTermStat]
      positivity
    · simp only [mkTermStat, hS1, hS2]
      rw [div_le_one (by exact_mod_cast hpos)]
      push_cast
      exact_mod_cast hsum

/-- Witness for C3: the `Nodup` hypotheses hold at the doctest-style tables
`[("he", 4), ("and", 6)]` and `[("he", 6)]`, and the theorem applies. -/
theorem dunning_total_term_statistics_witness :
    ((([("he", 4), ("and", 6)] : FreqTable).map Prod.fst).Nodup
      ∧ (([("he", 6)] : FreqTable).map Prod.fst).Nodup)
    ∧ (dunning_total [("he", 4), ("and", 6)] [("he", 6)]).Forall (fun p =>
      p.2.count_corp1 = getCount [("he", 4), ("and", 6)] p.1
      ∧ p.2.count_corp2 = getCount [("he", 6)] p.1
      ∧ p.2.count_total = p.2.count_corp1 + p.2.count_corp2
      ∧ p.2.freq_corp1 = (p.2.count_corp1 : ℝ) /
          ((((([("he", 4), ("and", 6)] : FreqTable).map Prod.snd).sum : Nat)) : ℝ)
      ∧ p.2.freq_corp2 = (p.2.count_corp2 : ℝ) /
          ((((([("he", 6)] : FreqTable).map Prod.snd).sum : Nat)) : ℝ)
      ∧ p.2.freq_total = (p.2.count_total : ℝ) /
          ((((([("he", 4), ("and", 6)] : FreqTable).map Prod.snd).sum : Nat) : ℝ)
            + ((((([("he", 6)] : FreqTable).map Prod.snd).sum : Nat)) : ℝ))
      ∧ (0 ≤ p.2.freq_corp1 ∧ p.2.freq_corp1 ≤ 1)
      ∧ (0 ≤ p.2.freq_corp2 ∧ p.2.freq_corp2 ≤ 1)
      ∧ (0 ≤ p.2.freq_total ∧ p.2.freq_total ≤ 1)) :=
  ⟨⟨by decide, by decide⟩,
   dunning_total_term_statistics [("he", 4), ("and", 6)] [("he", 6)] (by decide) (by decide)⟩

/-! ### Ranking, part-of-speech filtering, and the top-N walk
(`dunning_result_displayer`, lines 170-240, and `dunning_result_to_dict`,
lines 373-412; both share the sorted walk embedded as `rankedWalkSide`). -/

/-- Python substring containment (`needle in hay` on `str`), on char lists. -/
def subSearch (needle : List Char) : List Char → Bool
  | [] => needle == []
  | c :: rest => needle.isPrefixOf (c :: rest) || subSearch needle rest

/-- Embeds the mapping `pos_names_to_tags` (`dunning.py` lines 187-192 and
385-390). -/
def pos_names_to_tags : List (String × List String) :=
  [("adjectives", ["JJ", "JJR", "JJS"]),
   ("adverbs", ["RB", "RBR", "RBS", "WRB"]),
   ("verbs", ["VB", "VBD", "VBG", "VBN", "VBP", "VBZ"]),
   ("pronouns", ["PRP", "PRP$", "WP", "WP$"])]

/-- The Python value held by `part_of_speech_to_include` after the
name-resolution step: `None`, a plain string (an unrecognized category
name, kept as-is by the code), or a list of POS tags. -/
inductive PyPos where
  | nonePos
  | strPos (s : String)
  | tagsPos (tags : List String)

/-- Embeds lines 193-194 (and 391-392): a recognized category name is
replaced by its tag list; `None` stays `None`; any other string stays a
string. -/
def resolvePos (part_of_speech_to_include : Option String) : PyPos :=
  match part_of_speech_to_include with
  | none => PyPos.nonePos
  | some s =>
    match pos_names_to_tags.lookup s with
    | some tags => PyPos.tagsPos tags
    | none => PyPos.strPos s

/-- Python truthiness of the filter value (`if part_of_speech_to_include`):
`None`, the empty string and the empty list are falsy. -/
def pyTruthyPos : PyPos → Bool
  | PyPos.nonePos => false
  | PyPos.strPos s => !(s == "")
  | PyPos.tagsPos tags => !tags.isEmpty

/-- Python `term_pos in part_of_speech_to_include`: list membership for a
tag list, substring containment for a string (only reached when the value
is truthy). -/
def pyPosMember (term_pos : String) : PyPos → Bool
  | PyPos.nonePos => false
  | PyPos.strPos s => subSearch term_pos.data s.data
  | PyPos.tagsPos tags => tags.contains term_pos

/-- A term passes the filter unless the walk's guard
`if part_of_speech_to_include and term_pos not in part_of_speech_to_include:
continue` (lines 225-226 and 406-407) skips it.  `tagger` abstracts
`nltk.pos_tag([term])[0][1]`. -/
def pyPosPasses (tagger : String → String) (part : PyPos) (term : String) : Bool :=
  !(pyTruthyPos part && !(pyPosMember (tagger term) part))

/-- Embeds the top-N walk over the sorted results (lines 219-238 / 400-410):
stop once `number_of_terms_to_display` terms were taken; skip terms failing
the part-of-speech guard; otherwise take the term and count it. -/
def topNWalk (pass : String → Bool) : Nat → DunningResult → DunningResult
  | _, [] => []
  | number_of_terms_to_display, result :: sorted_rest =>
    if number_of_terms_to_display = 0 then []
    else if pass result.1 then
      result :: topNWalk pass (number_of_terms_to_display - 1) sorted_rest
    else topNWalk pass number_of_terms_to_display sorted_rest

/-- The Boolean "may come before" relation realised by the CPython stable
sort `sorted(dunning_result.items(), key=lambda x: x[1]['dunning'],
reverse=reverse)`: descending on the statistic when `reverse` is true,
ascending otherwise. -/
noncomputable def dunningLe (reverse : Bool) (x y : String × TermStat) : Bool :=
  if reverse then decide (y.2.dunning ≤ x.2.dunning)
  else decide (x.2.dunning ≤ y.2.dunning)

/-- Embeds `sorted(dunning_result.items(), key=lambda x: x[1]['dunning'],
reverse=reverse)` (lines 217-218 / 398-399): a stable sort on the dunning
score, via `List.mergeSort` (stable, like CPython's sort). -/
noncomputable def pySortedByDunning (reverse : Bool) (items : DunningResult) : DunningResult :=
  items.mergeSort (dunningLe reverse)

/-- One side of the ranking/display walk shared verbatim by
`dunning_result_displayer` (lines 214-238) and `dunning_result_to_dict`
(lines 396-411): sort all records by score in the side's direction, then
walk the sorted list applying the part-of-speech guard, stopping after
`number_of_terms_to_display` matches. -/
noncomputable def rankedWalkSide (tagger : String → String) (dunning_result : DunningResult)
    (number_of_terms_to_display : Nat) (part : PyPos) (reverse : Bool) : DunningResult :=
  topNWalk (fun term => pyPosPasses tagger part term) number_of_terms_to_display
    (pySortedByDunning reverse dunning_result)

/-- Python dict assignment `d[k] = v`: overwrite in place when the key
exists, append otherwise. -/
def pyDictSet {β : Type} (d : List (String × β)) (k : String) (v : β) : List (String × β) :=
  if (d.lookup k).isSome then
    d.map (fun p => if p.1 == k then (k, v) else p)
  else d ++ [(k, v)]

/-- Embeds `dunning_result_to_dict` (`dunning.py` lines 373-412): the two
ranked walks (`reverse = True` then `False`) inserted into one result
dict. -/
noncomputable def dunning_result_to_dict (tagger : String → String)
    (dunning_result : DunningResult) (number_of_terms_to_display : Nat)
    (part_of_speech_to_include : Option String) : DunningResult :=
  let part := resolvePos part_of_speech_to_include
  ((rankedWalkSide tagger dunning_result number_of_terms_to_display part true)
    ++ (rankedWalkSide tagger dunning_result number_of_terms_to_display part false)).foldl
    (fun final_results_dict result => pyDictSet final_results_dict result.1 result.2) []

lemma topNWalk_eq_take_filter (pass : String → Bool) :
    ∀ (n : Nat) (l : DunningResult),
      topNWalk pass n l = (l.filter (fun p => pass p.1)).take n := by
  intro n l
  induction l generalizing n with
  | nil => simp [topNWalk]
  | cons r rest ih =>
    by_cases hn : n = 0
    · subst hn; simp [topNWalk]
    · obtain ⟨m, rfl⟩ := Nat.exists_eq_succ_of_ne_zero hn
      by_cases hp : pass r.1
      · simp [topNWalk, hp, List.filter_cons, ih]
      · simp [topNWalk, hp, List.filter_cons, ih]

lemma dunningLe_trans (reverse : Bool) :
    ∀ a b c : String × TermStat,
      dunningLe reverse a b → dunningLe reverse b c → dunningLe reverse a c := by
  cases reverse
  · intro a b c h1 h2
    simp only [dunningLe, Bool.false_eq_true, if_false, decide_eq_true_eq] at *
    exact le_trans h1 h2
  · intro a b c h1 h2
    simp only [dunningLe, if_true, decide_eq_true_eq] at *
    exact le_trans h2 h1

lemma dunningLe_total (reverse : Bool) :
    ∀ a b : String × TermStat, dunningLe reverse a b || dunningLe reverse b a := by
  cases reverse <;>
    (intro a b; simp only [dunningLe, if_true, if_false, Bool.false_eq_true,
      Bool.or_eq_true, decide_eq_true_eq]; exact le_total _ _)

/-- Claim C6: each side of the ranking/display walk equals "sort all records
in the side's direction, filter by part of speech, take the first top-N":
it returns exactly `min top_n (number of matching terms)` entries, in
sorted order — the filter is applied during the walk over the full sorted
list, not after truncating to top-N. -/
theorem ranked_walk_characterisation (tagger : String → String)
    (dunning_result : DunningResult) (top_n : Nat) (part : PyPos) (reverse : Bool) :
    rankedWalkSide tagger dunning_result top_n part reverse
      = ((pySortedByDunning reverse dunning_result).filter
          (fun p => pyPosPasses tagger part p.1)).take top_n
    ∧ (rankedWalkSide tagger dunning_result top_n part reverse).length
      = min top_n (dunning_result.countP (fun p => pyPosPasses tagger part p.1))
    ∧ (rankedWalkSide tagger dunning_result top_n part reverse).Pairwise
        (fun x y => if reverse then y.2.dunning ≤ x.2.dunning
          else x.2.dunning ≤ y.2.dunning) := by
  have heq : rankedWalkSide tagger dunning_result top_n part reverse
      = ((pySortedByDunning reverse dunning_result).filter
          (fun p => pyPosPasses tagger part p.1)).take top_n :=
    topNWalk_eq_take_filter _ top_n _
  refine ⟨heq, ?_, ?_⟩
  · rw [heq, List.length_take, ← List.countP_eq_length_filter]
    simp only [pySortedByDunning]
    rw [(List.mergeSort_perm dunning_result (dunningLe reverse)).countP_eq]
  · rw [heq]
    have hsorted : (pySortedByDunning reverse dunning_result).Pairwise
        (fun x y => if reverse then y.2.dunning ≤ x.2.dunning
          else x.2.dunning ≤ y.2.dunning) := by
      have hs := List.sorted_mergeSort
        (dunningLe_trans reverse) (dunningLe_total reverse) dunning_result
      refine hs.imp ?_
      intro x y h
      cases reverse <;> simpa [dunningLe] using h
    exact hsorted.sublist ((List.take_sublist _ _).trans (List.filter_sublist _))

/-! ### Rendering (`dunning_result_displayer`, lines 170-240) -/

def headings : List String :=
  ["term", "dunning", "count_total", "count_corp1", "count_corp2",
   "freq_total", "freq_corp1", "freq_corp2"]

/-- Python `'{:Ns}'.format(s)`: left-justify in a field of `width`. -/
def pyFormatS (width : Nat) (s : String) : String :=
  s ++ String.mk (List.replicate (width - s.length) ' ')

/-- Python `'{:N.0f}'.format(int)`: right-justify the digits in a field of
`width`. -/
def pyFormatNat (width : Nat) (n : Nat) : String :=
  let s := toString n
  String.mk (List.replicate (width - s.length) ' ') ++ s

/-- Python `str()` of the (resolved) part-of-speech filter value, used in
the report banner. -/
def posDisplay : PyPos → String
  | PyPos.nonePos => "None"
  | PyPos.strPos s => s
  | PyPos.tagsPos tags => "[" ++ String.intercalate ", " tags ++ "]"

/-- Embeds lines 196-199: `if not corpus1_display_name: corpus1_display_name
= 'Corpus 1'` (Python falsiness: `None` or the empty string). -/
def pyNameOr : Option String → String → String
  | none, default_name => default_name
  | some s, default_name => if s == "" then default_name else s

/-- The per-side table header (lines 206-212). -/
def displayerHeader (corpus_name corpus1_display_name corpus2_display_name : String) : String :=
  "\nDunning Log-Likelihood results for " ++ corpus_name ++ "\n|"
    ++ headings.foldl (fun output heading =>
        output ++ " " ++ pyFormatS 19
          ((heading.replace "_corp1" (" " ++ corpus1_display_name)).replace
            "_corp2" (" " ++ corpus2_display_name)) ++ "|") ""
    ++ "\n" ++ String.mk (List.replicate 168 '_') ++ "\n"

/-- One table row (lines 228-237).  `fmtReal value width precision`
abstracts Python's fixed-precision float rendering (binary floating point
is outside this embedding, and its rendering is irrelevant to the claims). -/
def displayerRow (fmtReal : ℝ → Nat → Nat → String) (result : String × TermStat) : String :=
  "|  " ++ pyFormatS 18 result.1 ++ "|"
    ++ "  " ++ fmtReal result.2.dunning 17 2 ++ " |"
    ++ "  " ++ pyFormatNat 17 result.2.count_total ++ " |"
    ++ "  " ++ pyFormatNat 17 result.2.count_corp1 ++ " |"
    ++ "  " ++ pyFormatNat 17 result.2.count_corp2 ++ " |"
    ++ "  " ++ fmtReal (result.2.freq_total * 100) 16 4 ++ "% |"
    ++ "  " ++ fmtReal (result.2.freq_corp1 * 100) 16 4 ++ "% |"
    ++ "  " ++ fmtReal (result.2.freq_corp2 * 100) 16 4 ++ "% |"
    ++ "\n"

/-- One rendered side of the report: header plus the rows of the ranked,
filtered top-N walk. -/
noncomputable def renderSide (tagger : String → String) (fmtReal : ℝ → Nat → Nat → String)
    (dunning_result : DunningResult) (number_of_terms_to_display : Nat) (part : PyPos)
    (corpus_name corpus1_display_name corpus2_display_name : String) (reverse : Bool) : String :=
  displayerHeader corpus_name corpus1_display_name corpus2_display_name
    ++ String.join ((rankedWalkSide tagger dunning_result number_of_terms_to_display
        part reverse).map (displayerRow fmtReal))

/-- Embeds `dunning_result_displayer` (lines 170-240): resolve the filter,
default the display names, render one table per side (corpus 1 descending,
corpus 2 ascending), and return the assembled report (the Python function
prints it). -/
noncomputable def dunning_result_displayer (tagger : String → String)
    (fmtReal : ℝ → Nat → Nat → String) (dunning_result : DunningResult)
    (number_of_terms_to_display : Nat)
    (corpus1_display_name corpus2_display_name part_of_speech_to_include : Option String) :
    String :=
  let part := resolvePos part_of_speech_to_include
  let name1 := pyNameOr corpus1_display_name "Corpus 1"
  let name2 := pyNameOr corpus2_display_name "Corpus 2"
  "\nDisplaying Part of Speech: " ++ posDisplay part ++ "\n"
    ++ renderSide tagger fmtReal dunning_result number_of_terms_to_display part
        name1 name1 name2 true
    ++ renderSide tagger fmtReal dunning_result number_of_terms_to_display part
        name2 name1 name2 false

/-! ### Frame properties (claim C7): the two core functions only read the
structures handed to them.  Every access the Python code performs on a
caller-owned object is modelled as an explicit state-passing operation, so
that "the input is returned unchanged" is a provable statement. -/

/-- The state seen by `dunning_total`: the two caller-owned counters. -/
abbrev DTState := FreqTable × FreqTable

/-- Read `counter1[word]`. -/
def readWordcount1 (word : String) (s : DTState) : Nat × DTState := (getCount s.1 word, s)

/-- Read `counter2[word]`. -/
def readWordcount2 (word : String) (s : DTState) : Nat × DTState := (getCount s.2 word, s)

/-- Evaluate `word in counter2`. -/
def readHasWord2 (word : String) (s : DTState) : Bool × DTState :=
  ((s.2.lookup word).isSome, s)

/-- Read `counter1`'s key iterator. -/
def readKeys1 (s : DTState) : List String × DTState := (s.1.map Prod.fst, s)

/-- Read `counter2`'s key iterator. -/
def readKeys2 (s : DTState) : List String × DTState := (s.2.map Prod.fst, s)

/-- The totaling loop over `counter1` (lines 117-118), state threaded. -/
def totalLoop1 (keys : List String) (init : Nat × DTState) : Nat × DTState :=
  keys.foldl (fun p word1 =>
    let vs := readWordcount1 word1 p.2
    (p.1 + vs.1, vs.2)) init

/-- The totaling loop over `counter2` (lines 119-120), state threaded. -/
def totalLoop2 (keys : List String) (init : Nat × DTState) : Nat × DTState :=
  keys.foldl (fun p word2 =>
    let vs := readWordcount2 word2 p.2
    (p.1 + vs.1, vs.2)) init

/-- The main loop of `dunning_total` (lines 124-144), state threaded. -/
noncomputable def mainLoopS (total_words_counter1 total_words_counter2 : Nat)
    (keys : List String) (init : DunningResult × DTState) : DunningResult × DTState :=
  keys.foldl (fun p word =>
    let c1s := readWordcount1 word p.2
    let ms := readHasWord2 word c1s.2
    if ms.1 then
      let c2s := readWordcount2 word ms.2
      if c1s.1 + c2s.1 < 10 then (p.1, c2s.2)
      else (p.1 ++ [(word,
        mkTermStat total_words_counter1 total_words_counter2 c1s.1 c2s.1)], c2s.2)
    else (p.1, ms.2)) init

/-- State-threaded `dunning_total`: every operation the function performs
on the caller-owned counters is a read. -/
noncomputable def dunning_totalS (s : DTState) : DunningResult × DTState :=
  let kp1 := readKeys1 s
  let tp1 := totalLoop1 kp1.1 (0, kp1.2)
  let kp2 := readKeys2 tp1.2
  let tp2 := totalLoop2 kp2.1 (0, kp2.2)
  let rp := mainLoopS tp1.1 tp2.1 kp1.1 ([], tp2.2)
  (rp.1, rp.2)

lemma totalLoop1_eq (keys : List String) :
    ∀ (acc : Nat) (s : DTState),
      totalLoop1 keys (acc, s)
        = (keys.foldl (fun total word1 => total + getCount s.1 word1) acc, s) := by
  induction keys with
  | nil => intro acc s; rfl
  | cons x xs ih => intro acc s; exact ih (acc + getCount s.1 x) s

lemma totalLoop2_eq (keys : List String) :
    ∀ (acc : Nat) (s : DTState),
      totalLoop2 keys (acc, s)
        = (keys.foldl (fun total word2 => total + getCount s.2 word2) acc, s) := by
  induction keys with
  | nil => intro acc s; rfl
  | cons x xs ih => intro acc s; exact ih (acc + getCount s.2 x) s

lemma mainLoopS_eq (t1 t2 : Nat) (keys : List String) :
    ∀ (acc : DunningResult) (s : DTState),
      mainLoopS t1 t2 keys (acc, s)
        = (keys.foldl (fun dunning_result word =>
            let counter1_wordcount := getCount s.1 word
            if (s.2.lookup word).isSome then
              let counter2_wordcount := getCount s.2 word
              if counter1_wordcount + counter2_wordcount < 10 then dunning_result
              else dunning_result ++ [(word,
                mkTermStat t1 t2 counter1_wordcount counter2_wordcount)]
            else dunning_result) acc, s) := by
  induction keys with
  | nil => intro acc s; rfl
  | cons x xs ih =>
    intro acc s
    simp only [mainLoopS, List.foldl_cons] at ih ⊢
    by_cases hm : (s.2.lookup x).isSome
    · by_cases ht : getCount s.1 x + getCount s.2 x < 10
      · simpa [readWordcount1, readHasWord2, readWordcount2, hm, ht] using ih acc s
      · simpa [readWordcount1, readHasWord2, readWordcount2, hm, ht] using
          ih (acc ++ [(x, mkTermStat t1 t2 (getCount s.1 x) (getCount s.2 x))]) s
    · simpa [readWordcount1, readHasWord2, hm] using ih acc s

/-- The state seen by `dunning_result_displayer`: the caller-owned result
dict; reading `dunning_result.items()` is its only access. -/
def readItems (s : DunningResult) : DunningResult × DunningResult := (s, s)

/-- State-threaded `dunning_result_displayer`: the result dict is read once
per side (`sorted(dunning_result.items(), ...)`), never written. -/
noncomputable def dunning_result_displayerS (tagger : String → String)
    (fmtReal : ℝ → Nat → Nat → String) (number_of_terms_to_display : Nat)
    (corpus1_display_name corpus2_display_name part_of_speech_to_include : Option String)
    (s : DunningResult) : String × DunningResult :=
  let part := resolvePos part_of_speech_to_include
  let name1 := pyNameOr corpus1_display_name "Corpus 1"
  let name2 := pyNameOr corpus2_display_name "Corpus 2"
  let ip1 := readItems s
  let side1 := renderSide tagger fmtReal ip1.1 number_of_terms_to_display part
    name1 name1 name2 true
  let ip2 := readItems ip1.2
  let side2 := renderSide tagger fmtReal ip2.1 number_of_terms_to_display part
    name2 name1 name2 false
  ("\nDisplaying Part of Speech: " ++ posDisplay part ++ "\n" ++ side1 ++ side2, ip2.2)

/-- Claim C7: neither `dunning_total` nor `dunning_result_displayer`
mutates its inputs: the state-threaded versions return the caller-owned
structures unchanged, and produce the same value as the pure embeddings
(the presenter is a pure formatting step over the given records). -/
theorem core_functions_no_mutation :
    (∀ s : DTState,
      (dunning_totalS s).2 = s ∧ (dunning_totalS s).1 = dunning_total s.1 s.2)
    ∧ (∀ (tagger : String → String) (fmtReal : ℝ → Nat → Nat → String)
        (number_of_terms_to_display : Nat)
        (corpus1_display_name corpus2_display_name part_of_speech_to_include : Option String)
        (s : DunningResult),
      (dunning_result_displayerS tagger fmtReal number_of_terms_to_display
        corpus1_display_name corpus2_display_name part_of_speech_to_include s).2 = s
      ∧ (dunning_result_displayerS tagger fmtReal number_of_terms_to_display
          corpus1_display_name corpus2_display_name part_of_speech_to_include s).1
        = dunning_result_displayer tagger fmtReal s number_of_terms_to_display
            corpus1_display_name corpus2_display_name part_of_speech_to_include) := by
  constructor
  · rintro ⟨counter1, counter2⟩
    have key : dunning_totalS (counter1, counter2)
        = (dunning_total counter1 counter2, (counter1, counter2)) := by
      simp only [dunning_totalS, readKeys1, readKeys2, totalLoop1_eq, totalLoop2_eq,
        mainLoopS_eq]
      rfl
    rw [key]
    exact ⟨rfl, rfl⟩
  · intro tagger fmtReal number_of_terms_to_display name1 name2 posArg s
    exact ⟨rfl, rfl⟩

/-! ### Python exceptions, the pickle cache (`common.py` lines 148-189) and
the corpus collaborator -/

/-- The Python exceptions raised by the embedded code. -/
inductive PyErr where
  | ioError
  | valueError
  | typeError
  | nameError
deriving DecidableEq

/-- The pickle directory as a key-value store: filename ↦ stored object. -/
abbrev CacheState (α : Type) := List (String × α)

/-- Embeds `store_pickle` (`common.py` lines 148-167): write the object
under the filename and return the full path
`BASE_PATH / 'pickle_data' / (filename + '.pgz')`. -/
def store_pickle {α : Type} (obj : α) (filename : String) (st : CacheState α) :
    String × CacheState α :=
  ("pickle_data/" ++ filename ++ ".pgz", pyDictSet st filename obj)

/-- Embeds `load_pickle` (`common.py` lines 170-189).  Line 184 is an
unconditional `raise IOError` placed before the actual loading code, so
the function raises `IOError` on every call and the `GzipFile` read at
lines 186-189 is dead code; the embedding is therefore the constant
error. -/
def load_pickle {α : Type} (filename : String) (st : CacheState α) : Except PyErr α :=
  Except.error PyErr.ioError

/-- Modelled from the spec: the per-document collaborator (`novel`), an
external object exposing `words_associated` (the mapping from term to
count for words found next to the target) and `get_word_windows`; its code
(`gender_analysis/corpus.py`) is not part of the analysed sources.  `W` is
the Python type of the target word argument (a string, or a list of
strings for the money analysis). -/
structure Novel (W : Type) where
  words_associated : W → FreqTable
  get_word_windows : List String → Nat → FreqTable

/-- Modelled from the spec: the corpus abstraction of spec §6 (a mapping
from term to count for a partition, a partition operation by categorical
attribute, per-document access, metadata and a name); its implementation
(`gender_analysis/corpus.py`) is not part of the analysed sources. -/
structure CorpusOps (W C : Type) where
  corpus_name : C → String
  get_corpus_metadata : C → List String
  filter_by_gender : C → String → C
  get_wordcount_counter : C → FreqTable
  novels : C → List (Novel W)

/-- Python `Counter` update with a single key: add to an existing count or
append a new entry. -/
def pyCounterAdd (c : FreqTable) (k : String) (v : Nat) : FreqTable :=
  if (c.lookup k).isSome then
    c.map (fun p => if p.1 == k then (p.1, p.2 + v) else p)
  else c ++ [(k, v)]

/-- Python `counter.update(other)`: merge the counts of `other` into
`counter`. -/
def counterUpdate (counter other : FreqTable) : FreqTable :=
  other.foldl (fun acc kv => pyCounterAdd acc kv.1 kv.2) counter

/-- Embeds the evaluation of the name `corpus1_name` at `dunning.py` line
294: the name is neither a parameter of
`compare_word_association_between_corpus_analysis_dunning` nor defined
anywhere in the module, so Python name resolution fails and evaluating the
f-string raises `NameError`. -/
def undefined_name_corpus1_name : Except PyErr String := Except.error PyErr.nameError

/-- Embeds the evaluation of the name `corpus2_name` at `dunning.py` line
294, undefined for the same reason as `corpus1_name`. -/
def undefined_name_corpus2_name : Except PyErr String := Except.error PyErr.nameError

/-- Embeds the evaluation of the name `search_terms` at `dunning.py` lines
306 and 311: also undefined in the module, raising `NameError` if ever
reached. -/
def undefined_name_search_terms : Except PyErr (List String) := Except.error PyErr.nameError

/-- Embeds Python dict subscription with a slice (`results[0:10]` at
`dunning.py` line 165): `dict.__getitem__` hashes its key, a `slice` is
unhashable, so the subscription raises `TypeError`. -/
def pyDictSlice {β : Type} (d : List (String × β)) (lo hi : Option Int) :
    Except PyErr (List (String × β)) :=
  Except.error PyErr.typeError

/-- Embeds `dunning_total`'s optional persistence (lines 146-147): when a
filename is supplied, the result is additionally stored in the pickle
cache. -/
noncomputable def dunning_total_with_pickle (counter1 counter2 : FreqTable)
    (filename_to_pickle : Option String) (st : CacheState DunningResult) :
    DunningResult × CacheState DunningResult :=
  let dunning_result := dunning_total counter1 counter2
  match filename_to_pickle with
  | some filename => (dunning_result, (store_pickle dunning_result filename st).2)
  | none => (dunning_result, st)

/-- The display groups walked by the analysis entry points
(`[None, 'verbs', 'adjectives', 'pronouns', 'adverbs']`). -/
def display_groups : List (Option String) :=
  [none, some "verbs", some "adjectives", some "pronouns", some "adverbs"]

/-- Embeds the counter-building loops of
`compare_word_association_between_corpus_analysis_dunning` (lines
302-313): with a word window the loop evaluates the undefined name
`search_terms` (and would discard the result without updating the
counter); without one it merges each novel's associated-word counts. -/
def words_associated_loop {W : Type} (novels : List (Novel W)) (word : W)
    (word_window : Option Nat) : Except PyErr FreqTable :=
  novels.foldlM (fun counter novel =>
    match word_window with
    | some ww => do
        let search_terms ← undefined_name_search_terms
        let _ := novel.get_word_windows search_terms ww
        pure counter
    | none => pure (counterUpdate counter (novel.words_associated word))) ([] : FreqTable)

/-- Embeds `compare_word_association_between_corpus_analysis_dunning`
(`dunning.py` lines 280-326).  Its first statement builds the cache
filename from the undefined names `corpus1_name` and `corpus2_name` (line
294), so the function raises `NameError` before any loading or
computation; the remainder of the body is transcribed but unreachable. -/
noncomputable def compare_word_association_between_corpus_analysis_dunning
    {W C : Type} (ops : CorpusOps W C) (tagger : String → String)
    (fmtReal : ℝ → Nat → Nat → String) (wordToString : W → String) (word : W)
    (corpus1 corpus2 : C) (word_window : Option Nat) (to_pickle : Bool)
    (st : CacheState DunningResult) :
    Except PyErr (DunningResult × CacheState DunningResult) := do
  let corpus1_name ← undefined_name_corpus1_name
  let corpus2_name ← undefined_name_corpus2_name
  let pickle_filename := "dunning_" ++ wordToString word ++ "_associated_words_"
    ++ corpus1_name ++ "_vs_" ++ corpus2_name ++ "_in_" ++ ops.corpus_name corpus1
  let pickle_filename := match word_window with
    | some ww => pickle_filename ++ "_word_window_" ++ toString ww
    | none => pickle_filename
  let rs ← (match load_pickle pickle_filename st with
    | Except.ok results => Except.ok (results, st)
    | Except.error PyErr.ioError => do
        let corpus1_counter ← words_associated_loop (ops.novels corpus1) word word_window
        let corpus2_counter ← words_associated_loop (ops.novels corpus2) word word_window
        if to_pickle then
          Except.ok (dunning_total_with_pickle corpus1_counter corpus2_counter
            (some pickle_filename) st)
        else
          Except.ok (dunning_total corpus1_counter corpus2_counter, st)
    | Except.error e => Except.error e)
  let _reports := display_groups.map (fun group =>
    dunning_result_displayer tagger fmtReal rs.1 20
      (some (corpus1_name ++ ". " ++ wordToString word))
      (some (corpus2_name ++ ". " ++ wordToString word)) group)
  return (rs.1, rs.2)

/-- Embeds `female_characters_author_gender_differences` (lines 497-513). -/
noncomputable def female_characters_author_gender_differences {C : Type}
    (ops : CorpusOps String C) (tagger : String → String)
    (fmtReal : ℝ → Nat → Nat → String) (corpus : C) (to_pickle : Bool)
    (st : CacheState DunningResult) :
    Except PyErr (DunningResult × CacheState DunningResult) :=
  if "author_gender" ∉ ops.get_corpus_metadata corpus then Except.error PyErr.valueError
  else
    let male_corpus := ops.filter_by_gender corpus "male"
    let female_corpus := ops.filter_by_gender corpus "female"
    compare_word_association_between_corpus_analysis_dunning ops tagger fmtReal
      (fun s => s) "she" female_corpus male_corpus none to_pickle st

/-- Embeds `male_characters_author_gender_differences` (lines 519-535). -/
noncomputable def male_characters_author_gender_differences {C : Type}
    (ops : CorpusOps String C) (tagger : String → String)
    (fmtReal : ℝ → Nat → Nat → String) (corpus : C) (to_pickle : Bool)
    (st : CacheState DunningResult) :
    Except PyErr (DunningResult × CacheState DunningResult) :=
  if "author_gender" ∉ ops.get_corpus_metadata corpus then Except.error PyErr.valueError
  else
    let male_corpus := ops.filter_by_gender corpus "male"
    let female_corpus := ops.filter_by_gender corpus "female"
    compare_word_association_between_corpus_analysis_dunning ops tagger fmtReal
      (fun s => s) "he" female_corpus male_corpus none to_pickle st

/-- Embeds `god_author_gender_differences` (lines 541-557). -/
noncomputable def god_author_gender_differences {C : Type}
    (ops : CorpusOps String C) (tagger : String → String)
    (fmtReal : ℝ → Nat → Nat → String) (corpus : C) (to_pickle : Bool)
    (st : CacheState DunningResult) :
    Except PyErr (DunningResult × CacheState DunningResult) :=
  if "author_gender" ∉ ops.get_corpus_metadata corpus then Except.error PyErr.valueError
  else
    let male_corpus := ops.filter_by_gender corpus "male"
    let female_corpus := ops.filter_by_gender corpus "female"
    compare_word_association_between_corpus_analysis_dunning ops tagger fmtReal
      (fun s => s) "God" female_corpus male_corpus none to_pickle st

/-- Embeds `money_author_gender_differences` (lines 560-579); the target
word is a Python list of money-related terms. -/
noncomputable def money_author_gender_differences {C : Type}
    (ops : CorpusOps (List String) C) (tagger : String → String)
    (fmtReal : ℝ → Nat → Nat → String) (corpus : C) (to_pickle : Bool)
    (st : CacheState DunningResult) :
    Except PyErr (DunningResult × CacheState DunningResult) :=
  if "author_gender" ∉ ops.get_corpus_metadata corpus then Except.error PyErr.valueError
  else
    let male_corpus := ops.filter_by_gender corpus "male"
    let female_corpus := ops.filter_by_gender corpus "female"
    compare_word_association_between_corpus_analysis_dunning ops tagger fmtReal
      toString
      ["money", "dollars", "pounds", "euros", "dollar", "pound", "euro", "wealth", "income"]
      female_corpus male_corpus none to_pickle st

/-- Embeds `america_author_gender_differences` (lines 585-602). -/
noncomputable def america_author_gender_differences {C : Type}
    (ops : CorpusOps String C) (tagger : String → String)
    (fmtReal : ℝ → Nat → Nat → String) (corpus : C) (to_pickle : Bool)
    (st : CacheState DunningResult) :
    Except PyErr (DunningResult × CacheState DunningResult) :=
  if "author_gender" ∉ ops.get_corpus_metadata corpus then Except.error PyErr.valueError
  else
    let male_corpus := ops.filter_by_gender corpus "male"
    let female_corpus := ops.filter_by_gender corpus "female"
    compare_word_association_between_corpus_analysis_dunning ops tagger fmtReal
      (fun s => s) "America" female_corpus male_corpus none to_pickle st

/-- Embeds `male_vs_female_authors_analysis_dunning` (lines 423-458):
metadata precondition, cache lookup (`except IOError` triggering the
recomputation), `dunning_total(wordcounter_female, wordcounter_male)`,
optional display, and the final return. -/
noncomputable def male_vs_female_authors_analysis_dunning {C : Type}
    (ops : CorpusOps String C) (tagger : String → String)
    (fmtReal : ℝ → Nat → Nat → String) (corpus : C)
    (display_results to_pickle : Bool) (st : CacheState DunningResult) :
    Except PyErr (DunningResult × CacheState DunningResult) :=
  if "author_gender" ∉ ops.get_corpus_metadata corpus then Except.error PyErr.valueError
  else
    let pickle_filename := "dunning_male_vs_female_authors_" ++ ops.corpus_name corpus
    let resultsE := match load_pickle pickle_filename st with
      | Except.ok results => Except.ok (results, st)
      | Except.error PyErr.ioError =>
          let m_corpus := ops.filter_by_gender corpus "male"
          let f_corpus := ops.filter_by_gender corpus "female"
          let wordcounter_male := ops.get_wordcount_counter m_corpus
          let wordcounter_female := ops.get_wordcount_counter f_corpus
          if to_pickle then
            Except.ok (dunning_total_with_pickle wordcounter_female wordcounter_male
              (some pickle_filename) st)
          else
            Except.ok (dunning_total wordcounter_female wordcounter_male, st)
      | Except.error e => Except.error e
    match resultsE with
    | Except.error e => Except.error e
    | Except.ok rs =>
        let _reports := if display_results then display_groups.map (fun group =>
          dunning_result_displayer tagger fmtReal rs.1 20
            (some "Fem Author") (some "Male Author") group) else []
        Except.ok (rs.1, rs.2)

/-- Embeds `male_vs_female_authors_analysis_dunning_lesser` (lines
152-167): metadata precondition, `dunning_total(wordcounter_male,
wordcounter_female)`, then `print("women's top 10: ", results[0:10])`,
which slices the result dict. -/
noncomputable def male_vs_female_authors_analysis_dunning_lesser {C : Type}
    (ops : CorpusOps String C) (corpus : C) : Except PyErr DunningResult :=
  if "author_gender" ∉ ops.get_corpus_metadata corpus then Except.error PyErr.valueError
  else do
    let m_corpus := ops.filter_by_gender corpus "male"
    let f_corpus := ops.filter_by_gender corpus "female"
    let wordcounter_male := ops.get_wordcount_counter m_corpus
    let wordcounter_female := ops.get_wordcount_counter f_corpus
    let results := dunning_total wordcounter_male wordcounter_female
    let _womens_top_10 ← pyDictSlice results (some 0) (some 10)
    let _mens_top_10 ← pyDictSlice results (some (-10)) none
    return results

/-! ### Claims C8, C9, C10 -/

/-- Claim C8 (code bug): the cache never round-trips, because `load_pickle`
raises `IOError` unconditionally — even immediately after `store_pickle`
stored the object under the same key; the analysis entry point treats the
`IOError` as normal control flow and recomputes the result from scratch
instead of failing. -/
theorem pickle_cache_never_round_trips :
    (∀ (α : Type) (obj : α) (filename : String) (st : CacheState α),
      load_pickle filename ((store_pickle obj filename st).2) = Except.error PyErr.ioError)
    ∧ (∀ (C : Type) (ops : CorpusOps String C) (tagger : String → String)
        (fmtReal : ℝ → Nat → Nat → String) (corpus : C)
        (display_results to_pickle : Bool) (st : CacheState DunningResult),
      male_vs_female_authors_analysis_dunning ops tagger fmtReal corpus
          display_results to_pickle st
        = if "author_gender" ∈ ops.get_corpus_metadata corpus then
            Except.ok (dunning_total
                (ops.get_wordcount_counter (ops.filter_by_gender corpus "female"))
                (ops.get_wordcount_counter (ops.filter_by_gender corpus "male")),
              if to_pickle then
                (store_pickle (dunning_total
                    (ops.get_wordcount_counter (ops.filter_by_gender corpus "female"))
                    (ops.get_wordcount_counter (ops.filter_by_gender corpus "male")))
                  ("dunning_male_vs_female_authors_" ++ ops.corpus_name corpus) st).2
              else st)
          else Except.error PyErr.valueError) := by
  constructor
  · intro α obj filename st
    rfl
  · intro C ops tagger fmtReal corpus display_results to_pickle st
    by_cases h : "author_gender" ∈ ops.get_corpus_metadata corpus
    · rw [male_vs_female_authors_analysis_dunning, if_neg (not_not_intro h), if_pos h]
      cases to_pickle <;> rfl
    · rw [male_vs_female_authors_analysis_dunning, if_pos h, if_neg h]

/-- Claim C9: `compare_word_association_between_corpus_analysis_dunning`
raises `NameError` on every input while building the cache filename
(`corpus1_name` is undefined), before any loading or computation;
consequently each of the five word-association analyses raises `NameError`
for every corpus satisfying its metadata precondition (and `ValueError`
otherwise), never returning a result. -/
theorem word_association_analyses_raise_nameerror :
    (∀ (W C : Type) (ops : CorpusOps W C) (tagger : String → String)
        (fmtReal : ℝ → Nat → Nat → String) (wordToString : W → String) (word : W)
        (corpus1 corpus2 : C) (word_window : Option Nat) (to_pickle : Bool)
        (st : CacheState DunningResult),
      compare_word_association_between_corpus_analysis_dunning ops tagger fmtReal
          wordToString word corpus1 corpus2 word_window to_pickle st
        = Except.error PyErr.nameError)
    ∧ (∀ (C : Type) (ops : CorpusOps String C) (tagger : String → String)
        (fmtReal : ℝ → Nat → Nat → String) (corpus : C) (to_pickle : Bool)
        (st : CacheState DunningResult),
      female_characters_author_gender_differences ops tagger fmtReal corpus to_pickle st
        = if "author_gender" ∈ ops.get_corpus_metadata corpus then
            Except.error PyErr.nameError
          else Except.error PyErr.valueError)
    ∧ (∀ (C : Type) (ops : CorpusOps String C) (tagger : String → String)
        (fmtReal : ℝ → Nat → Nat → String) (corpus : C) (to_pickle : Bool)
        (st : CacheState DunningResult),
      male_characters_author_gender_differences ops tagger fmtReal corpus to_pickle st
        = if "author_gender" ∈ ops.get_corpus_metadata corpus then
            Except.error PyErr.nameError
          else Except.error PyErr.valueError)
    ∧ (∀ (C : Type) (ops : CorpusOps String C) (tagger : String → String)
        (fmtReal : ℝ → Nat → Nat → String) (corpus : C) (to_pickle : Bool)
        (st : CacheState DunningResult),
      god_author_gender_differences ops tagger fmtReal corpus to_pickle st
        = if "author_gender" ∈ ops.get_corpus_metadata corpus then
            Except.error PyErr.nameError
          else Except.error PyErr.valueError)
    ∧ (∀ (C : Type) (ops : CorpusOps (List String) C) (tagger : String → String)
        (fmtReal : ℝ → Nat → Nat → String) (corpus : C) (to_pickle : Bool)
        (st : CacheState DunningResult),
      money_author_gender_differences ops tagger fmtReal corpus to_pickle st
        = if "author_gender" ∈ ops.get_corpus_metadata corpus then
            Except.error PyErr.nameError
          else Except.error PyErr.valueError)
    ∧ (∀ (C : Type) (ops : CorpusOps String C) (tagger : String → String)
        (fmtReal : ℝ → Nat → Nat → String) (corpus : C) (to_pickle : Bool)
        (st : CacheState DunningResult),
      america_author_gender_differences ops tagger fmtReal corpus to_pickle st
        = if "author_gender" ∈ ops.get_corpus_metadata corpus then
            Except.error PyErr.nameError
          else Except.error PyErr.valueError) := by
  have hcompare : ∀ (W C : Type) (ops : CorpusOps W C) (tagger : String → String)
      (fmtReal : ℝ → Nat → Nat → String) (wordToString : W → String) (word : W)
      (corpus1 corpus2 : C) (word_window : Option Nat) (to_pickle : Bool)
      (st : CacheState DunningResult),
      compare_word_association_between_corpus_analysis_dunning ops tagger fmtReal
        wordToString word corpus1 corpus2 word_window to_pickle st
        = Except.error PyErr.nameError := by
    intro W C ops tagger fmtReal wordToString word corpus1 corpus2 word_window to_pickle st
    rfl
  refine ⟨hcompare, ?_, ?_, ?_, ?_, ?_⟩ <;>
    (intro C ops tagger fmtReal corpus to_pickle st
     by_cases h : "author_gender" ∈ ops.get_corpus_metadata corpus
     · rw [if_pos h]
       simp only [female_characters_author_gender_differences,
         male_characters_author_gender_differences, god_author_gender_differences,
         money_author_gender_differences, america_author_gender_differences,
         if_neg (not_not_intro h)]
       exact hcompare _ _ _ _ _ _ _ _ _ _ _ _
     · rw [if_neg h]
       simp only [female_characters_author_gender_differences,
         male_characters_author_gender_differences, god_author_gender_differences,
         money_author_gender_differences, america_author_gender_differences,
         if_pos h])

/-- Claim C10: `male_vs_female_authors_analysis_dunning_lesser` raises
`TypeError` after computing the result set (it slices the dict returned by
`dunning_total`), for every corpus whose metadata contains
`author_gender`; it never reaches its return statement. -/
theorem lesser_analysis_always_raises_typeerror :
    ∀ (C : Type) (ops : CorpusOps String C) (corpus : C),
      male_vs_female_authors_analysis_dunning_lesser ops corpus
        = if "author_gender" ∈ ops.get_corpus_metadata corpus then
            Except.error PyErr.typeError
          else Except.error PyErr.valueError := by
  intro C ops corpus
  by_cases h : "author_gender" ∈ ops.get_corpus_metadata corpus
  · rw [male_vs_female_authors_analysis_dunning_lesser, if_neg (not_not_intro h), if_pos h]
    rfl
  · rw [male_vs_female_authors_analysis_dunning_lesser, if_pos h, if_neg h]

end GenderAnalysis
